import Mathlib

/-!
Verification development for the monitor (intrinsic lock) subsystem declared in
`src/monitor.h` of the android_art repository.

The repository provides the header only.  The lock-word field extractors
(`LW_SHAPE`, `LW_HASH_STATE`, `LW_LOCK_OWNER`) are fully defined there as
macros and are embedded below directly from the source.  The bodies of the
`Monitor` and `MonitorList` member functions are not part of the repository
snapshot (the header declares them); those operations are modelled from the
specification, each carrying a doc comment that says so.
-/

namespace Art

/-- From monitor.h line 35: `#define LW_SHAPE_THIN 0`. -/
def LW_SHAPE_THIN : Nat := 0

/-- From monitor.h line 36: `#define LW_SHAPE_FAT 1`. -/
def LW_SHAPE_FAT : Nat := 1

/-- From monitor.h line 37: `#define LW_SHAPE_MASK 0x1`. -/
def LW_SHAPE_MASK : Nat := 0x1

/-- From monitor.h line 38: `#define LW_SHAPE(x) ((x) & LW_SHAPE_MASK)`. -/
def LW_SHAPE (x : Nat) : Nat := x &&& LW_SHAPE_MASK

/-- From monitor.h line 44: `#define LW_HASH_STATE_UNHASHED 0`. -/
def LW_HASH_STATE_UNHASHED : Nat := 0

/-- From monitor.h line 45: `#define LW_HASH_STATE_HASHED 1`. -/
def LW_HASH_STATE_HASHED : Nat := 1

/-- From monitor.h line 46: `#define LW_HASH_STATE_HASHED_AND_MOVED 3`. -/
def LW_HASH_STATE_HASHED_AND_MOVED : Nat := 3

/-- From monitor.h line 47: `#define LW_HASH_STATE_MASK 0x3`. -/
def LW_HASH_STATE_MASK : Nat := 0x3

/-- From monitor.h line 48: `#define LW_HASH_STATE_SHIFT 1`. -/
def LW_HASH_STATE_SHIFT : Nat := 1

/-- From monitor.h line 49:
`#define LW_HASH_STATE(x) (((x) >> LW_HASH_STATE_SHIFT) & LW_HASH_STATE_MASK)`. -/
def LW_HASH_STATE (x : Nat) : Nat := (x >>> LW_HASH_STATE_SHIFT) &&& LW_HASH_STATE_MASK

/-- From monitor.h line 55: `#define LW_LOCK_OWNER_MASK 0xffff`. -/
def LW_LOCK_OWNER_MASK : Nat := 0xffff

/-- From monitor.h line 56: `#define LW_LOCK_OWNER_SHIFT 3`. -/
def LW_LOCK_OWNER_SHIFT : Nat := 3

/-- From monitor.h line 57:
`#define LW_LOCK_OWNER(x) (((x) >> LW_LOCK_OWNER_SHIFT) & LW_LOCK_OWNER_MASK)`. -/
def LW_LOCK_OWNER (x : Nat) : Nat := (x >>> LW_LOCK_OWNER_SHIFT) &&& LW_LOCK_OWNER_MASK

/-- Modelled from the spec: the body of `Monitor::GetThinLockId` is not in the
repository snapshot (the header only declares it at monitor.h lines 71-72); the
spec says it extracts the owner-thread-ID field of the raw lock word, which is
the `LW_LOCK_OWNER` field defined in the header. -/
def Monitor.GetThinLockId (raw_lock_word : Nat) : Nat := LW_LOCK_OWNER raw_lock_word

/-- The mutable state of one fat `Monitor` record, following the private fields
declared at monitor.h lines 144-154: `owner_` (the thread currently holding the
lock, or none), `lock_count_` (the owner's recursive lock depth), `obj_` (the
object this monitor is part of), and `wait_set_` (the threads currently waiting
on this monitor, an ordered collection preserving insertion order).  Threads and
objects are identified by natural numbers. -/
structure MonitorState where
  owner_ : Option Nat
  lock_count_ : Nat
  obj_ : Nat
  wait_set_ : List Nat
deriving DecidableEq, Repr

/-- Modelled from the spec: the body of the private constructor
`Monitor(Thread* owner, Object* obj)` (monitor.h line 97) is not in the
repository snapshot.  Inflation transfers the current owner into `owner_` and
sets `obj_` once, never to change afterwards; the wait set starts empty. -/
def Monitor.construct (owner : Nat) (obj : Nat) : MonitorState :=
  { owner_ := some owner, lock_count_ := 1, obj_ := obj, wait_set_ := [] }

/-- From monitor.h line 94: `Object* GetObject()` returns the `obj_`
back-reference. -/
def Monitor.GetObject (s : MonitorState) : Nat := s.obj_

/-- Modelled from the spec: the body of `Monitor::MonitorEnter` (monitor.h
lines 74-76) is not in the repository snapshot.  Per the spec, a thread entering
an unlocked monitor becomes owner at depth 1; the owner re-entering increments
the depth; a thread finding another owner blocks until ownership is obtained
(its attempt leaves the state unchanged at that instant). -/
def MonitorEnter (thread : Nat) (s : MonitorState) : MonitorState :=
  match s.owner_ with
  | none => { s with owner_ := some thread, lock_count_ := 1 }
  | some u =>
      if u = thread then { s with lock_count_ := s.lock_count_ + 1 } else s

/-- A recorded call to `Monitor::FailedUnlock` (monitor.h lines 110-112), which
takes the object, the expected owner (the thread attempting the unlock) and the
found owner (the thread actually holding the lock, possibly none). -/
structure FailedUnlockCall where
  obj : Nat
  expected_owner : Nat
  found_owner : Option Nat
deriving DecidableEq, Repr

/-- The outcome of `Monitor::MonitorExit`: the boolean return value, the
monitor state afterwards, and the `FailedUnlock` diagnostic call made on the
failure path (none on success). -/
structure ExitResult where
  ok : Bool
  state : MonitorState
  failed_unlock : Option FailedUnlockCall
deriving DecidableEq, Repr

/-- Modelled from the spec: the body of `Monitor::MonitorExit` (monitor.h
lines 77-79) is not in the repository snapshot.  Per the spec, exit by the
owner decrements the depth and, when the depth reaches 0, releases ownership;
exit by a thread that is not the current owner fails (returns false), invokes
`FailedUnlock` with the expected and found owners, and does not abort or change
the lock state. -/
def MonitorExit (thread : Nat) (s : MonitorState) : ExitResult :=
  match s.owner_ with
  | some u =>
      if u = thread then
        if s.lock_count_ - 1 = 0 then
          { ok := true, state := { s with owner_ := none, lock_count_ := 0 },
            failed_unlock := none }
        else
          { ok := true, state := { s with lock_count_ := s.lock_count_ - 1 },
            failed_unlock := none }
      else
        { ok := false, state := s,
          failed_unlock := some { obj := s.obj_, expected_owner := thread,
                                  found_owner := some u } }
  | none =>
      { ok := false, state := s,
        failed_unlock := some { obj := s.obj_, expected_owner := thread,
                                found_owner := none } }

/-- Iterated `MonitorEnter` by one thread. -/
def MonitorEnterN (thread : Nat) : Nat → MonitorState → MonitorState
  | 0, s => s
  | n + 1, s => MonitorEnterN thread n (MonitorEnter thread s)

/-- Iterated `MonitorExit` by one thread (keeping only the resulting state). -/
def MonitorExitN (thread : Nat) : Nat → MonitorState → MonitorState
  | 0, s => s
  | n + 1, s => MonitorExitN thread n (MonitorExit thread s).state

/-- Modelled from the spec: the body of `Monitor::AppendToWaitSet` (monitor.h
line 100) is not in the repository snapshot.  Per the spec the wait set is an
ordered collection preserving insertion order, so appending places the thread
at the tail. -/
def AppendToWaitSet (thread : Nat) (s : MonitorState) : MonitorState :=
  { s with wait_set_ := s.wait_set_ ++ [thread] }

/-- Modelled from the spec: the body of `Monitor::RemoveFromWaitSet`
(monitor.h line 101) is not in the repository snapshot; it removes the given
thread from the wait set (a no-op when the thread is not in it). -/
def RemoveFromWaitSet (thread : Nat) (s : MonitorState) : MonitorState :=
  { s with wait_set_ := s.wait_set_.erase thread }

/-- The three ways a waiting thread can be woken: a notify, expiry of the
requested timeout, or an interrupt request. -/
inductive WakeReason where
  | notified
  | timedOut
  | interrupted
deriving DecidableEq, Repr

/-- Modelled from the spec: the body of `Monitor::WaitWithLock` (monitor.h
lines 130-132) is not in the repository snapshot.  Per the spec, `Wait` records
and clears the current recursion depth, appends the caller to the wait set and
releases ownership; on wake by any path (notify, timeout, or interrupt, and for
either value of `interruptShouldThrow`) the caller is removed from the wait
set, re-acquires the monitor and restores its original recursion depth.  The
`ms`/`ns` arguments select the timeout and `interruptShouldThrow` only selects
how an interrupt is surfaced to the embedding language; neither affects the
restored lock state. -/
def WaitWithLock (self : Nat) (ms : Int) (ns : Int) (interruptShouldThrow : Bool)
    (reason : WakeReason) (s : MonitorState) : MonitorState :=
  let prev_lock_count := s.lock_count_
  let released := AppendToWaitSet self { s with owner_ := none, lock_count_ := 0 }
  let woken := RemoveFromWaitSet self released
  { woken with owner_ := some self, lock_count_ := prev_lock_count }

/-- Modelled from the spec: the body of `Monitor::NotifyWithLock` (monitor.h
lines 118-120) is not in the repository snapshot.  Per the spec, `Notify`
removes and wakes exactly one thread from the wait set, the one waiting
longest, i.e. the head of `wait_set_`; with an empty wait set it wakes
nobody. -/
def NotifyWithLock (s : MonitorState) : Option Nat × MonitorState :=
  match s.wait_set_ with
  | [] => (none, s)
  | w :: rest => (some w, { s with wait_set_ := rest })

/-- Modelled from the spec: the body of `Monitor::Notify` (monitor.h line 81)
is not in the repository snapshot.  The owner check is enforced before the
wait-set manipulation; a caller that is not the owner wakes nobody. -/
def Notify (self : Nat) (s : MonitorState) : Option Nat × MonitorState :=
  if s.owner_ = some self then NotifyWithLock s else (none, s)

/-- Modelled from the spec: the body of `Monitor::NotifyAllWithLock`
(monitor.h lines 123-125) is not in the repository snapshot.  Per the spec,
`NotifyAll` removes and wakes every thread in the wait set. -/
def NotifyAllWithLock (s : MonitorState) : List Nat × MonitorState :=
  (s.wait_set_, { s with wait_set_ := [] })

/-- Modelled from the spec: the body of `Monitor::NotifyAll` (monitor.h
line 83) is not in the repository snapshot; the owner check precedes the
wait-set manipulation. -/
def NotifyAll (self : Nat) (s : MonitorState) : List Nat × MonitorState :=
  if s.owner_ = some self then NotifyAllWithLock s else ([], s)

/-- One monitor operation requested by a thread, used to describe arbitrary
interleaved histories of calls on a single monitor. -/
inductive MonitorEvent where
  | enter (t : Nat)
  | leave (t : Nat)
  | wait (t : Nat) (ms ns : Int) (interruptShouldThrow : Bool) (reason : WakeReason)
  | notifyOne (t : Nat)
  | notifyEvery (t : Nat)
deriving DecidableEq, Repr

/-- Modelled from the spec: how one requested operation transforms the monitor
state.  A `wait` by a thread that does not own the monitor is the external
illegal-monitor-state path and leaves the state unchanged. -/
def applyEvent (e : MonitorEvent) (s : MonitorState) : MonitorState :=
  match e with
  | .enter t => MonitorEnter t s
  | .leave t => (MonitorExit t s).state
  | .wait t ms ns ist r => if s.owner_ = some t then WaitWithLock t ms ns ist r s else s
  | .notifyOne t => (Notify t s).2
  | .notifyEvery t => (NotifyAll t s).2

/-- Run a history of monitor operations from a starting state. -/
def runEvents (evs : List MonitorEvent) (s : MonitorState) : MonitorState :=
  evs.foldl (fun s e => applyEvent e s) s

/-- The registry state of `MonitorList` (monitor.h lines 167-182): the list of
registered monitors. -/
structure MonitorListState where
  list_ : List MonitorState
deriving DecidableEq, Repr

/-- Modelled from the spec: the body of `MonitorList::Add` (monitor.h
line 172) is not in the repository snapshot; it appends the monitor to the
registry. -/
def MonitorList.Add (m : MonitorState) (ml : MonitorListState) : MonitorListState :=
  { list_ := ml.list_ ++ [m] }

/-- Modelled from the spec: the body of `MonitorList::SweepMonitorList`
(monitor.h lines 174-175) is not in the repository snapshot.  Per the spec, it
calls the supplied `is_marked` predicate on each registered monitor's backing
object and removes (unregisters, without freeing) the monitors whose object is
unmarked.  The opaque `void* arg` context pointer is folded into the
predicate. -/
def MonitorList.SweepMonitorList (is_marked : Nat → Bool) (ml : MonitorListState) :
    MonitorListState :=
  { list_ := ml.list_.filter (fun m => is_marked m.obj_) }

/- ------------------------------------------------------------------ -/
/- Helper lemmas (shared by several claim theorems).                   -/
/- ------------------------------------------------------------------ -/

theorem and_three_eq_mod (n : Nat) : n &&& 3 = n % 4 := by
  have h := Nat.and_pow_two_sub_one_eq_mod n 2
  norm_num at h
  exact h

theorem and_ffff_eq_mod (n : Nat) : n &&& 65535 = n % 65536 := by
  have h := Nat.and_pow_two_sub_one_eq_mod n 16
  norm_num at h
  exact h

theorem LW_SHAPE_eq_mod (x : Nat) : LW_SHAPE x = x % 2 := by
  simp [LW_SHAPE, LW_SHAPE_MASK, Nat.and_one_is_mod]

theorem LW_HASH_STATE_eq_mod (x : Nat) : LW_HASH_STATE x = x / 2 % 4 := by
  simp [LW_HASH_STATE, LW_HASH_STATE_MASK, LW_HASH_STATE_SHIFT, and_three_eq_mod,
    Nat.shiftRight_eq_div_pow, pow_one]

theorem LW_LOCK_OWNER_eq_mod (x : Nat) : LW_LOCK_OWNER x = x / 8 % 65536 := by
  have h : x >>> 3 = x / 8 := by
    rw [Nat.shiftRight_eq_div_pow]
  simp [LW_LOCK_OWNER, LW_LOCK_OWNER_MASK, LW_LOCK_OWNER_SHIFT, and_ffff_eq_mod, h]

theorem MonitorEnterN_owned (t n : Nat) (s : MonitorState) (h : s.owner_ = some t) :
    MonitorEnterN t n s =
      { owner_ := some t, lock_count_ := s.lock_count_ + n, obj_ := s.obj_,
        wait_set_ := s.wait_set_ } := by
  induction n generalizing s with
  | zero =>
      obtain ⟨o, c, ob, w⟩ := s
      simp only at h
      subst h
      rfl
  | succ n ih =>
      obtain ⟨o, c, ob, w⟩ := s
      simp only at h
      subst h
      show MonitorEnterN t n (MonitorEnter t ⟨some t, c, ob, w⟩) = _
      have he : MonitorEnter t ⟨some t, c, ob, w⟩ = ⟨some t, c + 1, ob, w⟩ := by
        simp [MonitorEnter]
      rw [he, ih _ rfl]
      have harith : c + 1 + n = c + (n + 1) := by omega
      rw [harith]

theorem MonitorExitN_owned_lt (t k : Nat) (s : MonitorState) (h : s.owner_ = some t)
    (hk : k < s.lock_count_) :
    MonitorExitN t k s =
      { owner_ := some t, lock_count_ := s.lock_count_ - k, obj_ := s.obj_,
        wait_set_ := s.wait_set_ } := by
  induction k generalizing s with
  | zero =>
      obtain ⟨o, c, ob, w⟩ := s
      simp only at h
      subst h
      rfl
  | succ k ih =>
      obtain ⟨o, c, ob, w⟩ := s
      simp only at h hk
      subst h
      have hc : c - 1 ≠ 0 := by omega
      show MonitorExitN t k (MonitorExit t ⟨some t, c, ob, w⟩).state = _
      have he : (MonitorExit t ⟨some t, c, ob, w⟩).state = ⟨some t, c - 1, ob, w⟩ := by
        simp [MonitorExit, hc]
      rw [he, ih _ rfl (by simp; omega)]
      have harith : c - 1 - k = c - (k + 1) := by omega
      rw [harith]

theorem MonitorExitN_owned_full (t n : Nat) (s : MonitorState) (h : s.owner_ = some t)
    (hc : s.lock_count_ = n) (hn : 1 ≤ n) :
    MonitorExitN t n s =
      { owner_ := none, lock_count_ := 0, obj_ := s.obj_, wait_set_ := s.wait_set_ } := by
  induction n generalizing s with
  | zero => omega
  | succ m ih =>
      obtain ⟨o, c, ob, w⟩ := s
      simp only at h hc
      subst h
      subst hc
      show MonitorExitN t m (MonitorExit t ⟨some t, m + 1, ob, w⟩).state = _
      rcases Nat.eq_zero_or_pos m with hm | hm
      · subst hm
        simp [MonitorExit, MonitorExitN]
      · have hmz : ¬(m = 0) := by omega
        have he : (MonitorExit t ⟨some t, m + 1, ob, w⟩).state = ⟨some t, m, ob, w⟩ := by
          simp [MonitorExit, hmz]
        rw [he, ih ⟨some t, m, ob, w⟩ rfl rfl hm]

theorem MonitorEnter_obj (t : Nat) (s : MonitorState) :
    (MonitorEnter t s).obj_ = s.obj_ := by
  obtain ⟨o, c, ob, w⟩ := s
  cases o with
  | none => rfl
  | some u =>
      simp only [MonitorEnter]
      split <;> rfl

theorem MonitorExit_obj (t : Nat) (s : MonitorState) :
    (MonitorExit t s).state.obj_ = s.obj_ := by
  obtain ⟨o, c, ob, w⟩ := s
  cases o with
  | none => rfl
  | some u =>
      by_cases hu : u = t
      · subst hu
        by_cases hc : c - 1 = 0 <;> simp [MonitorExit, hc]
      · simp [MonitorExit, hu]

theorem WaitWithLock_obj (t : Nat) (ms ns : Int) (ist : Bool) (r : WakeReason)
    (s : MonitorState) : (WaitWithLock t ms ns ist r s).obj_ = s.obj_ := by
  simp [WaitWithLock, AppendToWaitSet, RemoveFromWaitSet]

theorem Notify_obj (t : Nat) (s : MonitorState) : (Notify t s).2.obj_ = s.obj_ := by
  obtain ⟨o, c, ob, w⟩ := s
  simp only [Notify, NotifyWithLock]
  split
  · cases w <;> rfl
  · rfl

theorem NotifyAll_obj (t : Nat) (s : MonitorState) : (NotifyAll t s).2.obj_ = s.obj_ := by
  simp only [NotifyAll, NotifyAllWithLock]
  split <;> rfl

theorem applyEvent_obj (e : MonitorEvent) (s : MonitorState) :
    (applyEvent e s).obj_ = s.obj_ := by
  cases e with
  | enter t => exact MonitorEnter_obj t s
  | leave t => exact MonitorExit_obj t s
  | wait t ms ns ist r =>
      simp only [applyEvent]
      split
      · exact WaitWithLock_obj t ms ns ist r s
      · rfl
  | notifyOne t => exact Notify_obj t s
  | notifyEvery t => exact NotifyAll_obj t s

theorem runEvents_obj (evs : List MonitorEvent) (s : MonitorState) :
    (runEvents evs s).obj_ = s.obj_ := by
  induction evs generalizing s with
  | nil => rfl
  | cons e evs ih =>
      show (runEvents evs (applyEvent e s)).obj_ = s.obj_
      rw [ih (applyEvent e s), applyEvent_obj]

/- ------------------------------------------------------------------ -/
/- Claim theorems.                                                     -/
/- ------------------------------------------------------------------ -/

/-- C1: mutual exclusion.  After any history of interleaved monitor operations
on one object, at most one thread observes itself as the owner (`owner_` equal
to itself) with `lock_count_ > 0` at any instant. -/
theorem monitor_mutual_exclusion (evs : List MonitorEvent) (s : MonitorState)
    (t1 t2 : Nat)
    (h1 : (runEvents evs s).owner_ = some t1 ∧ 0 < (runEvents evs s).lock_count_)
    (h2 : (runEvents evs s).owner_ = some t2 ∧ 0 < (runEvents evs s).lock_count_) :
    t1 = t2 := by
  have h := h1.1.symm.trans h2.1
  exact Option.some.inj h

/-- Witness for C1 at a concrete history: thread 5 enters an unlocked monitor
and is the unique observed owner. -/
theorem monitor_mutual_exclusion_witness : (5 : Nat) = 5 :=
  monitor_mutual_exclusion [MonitorEvent.enter 5] ⟨none, 0, 0, []⟩ 5 5
    (by decide) (by decide)

/-- C2: reentrancy round-trip.  From an unlocked monitor, `MonitorEnter` n
times by thread t followed by `MonitorExit` n times leaves the monitor unlocked
(`lock_count_ = 0`, no owner), and the (n+1)-th `MonitorExit` by t returns the
owner-mismatch failure instead of succeeding. -/
theorem monitor_reentrancy (t n : Nat) (s : MonitorState) (hn : 1 ≤ n)
    (ho : s.owner_ = none) (hc : s.lock_count_ = 0) :
    (MonitorExitN t n (MonitorEnterN t n s)).owner_ = none ∧
    (MonitorExitN t n (MonitorEnterN t n s)).lock_count_ = 0 ∧
    (MonitorExit t (MonitorExitN t n (MonitorEnterN t n s))).ok = false ∧
    (MonitorExit t (MonitorExitN t n (MonitorEnterN t n s))).failed_unlock =
      some { obj := s.obj_, expected_owner := t, found_owner := none } := by
  obtain ⟨m, rfl⟩ : ∃ m, n = m + 1 := ⟨n - 1, by omega⟩
  obtain ⟨o, c, ob, w⟩ := s
  simp only at ho hc
  subst ho
  subst hc
  have hstep : MonitorEnterN t (m + 1) ⟨none, 0, ob, w⟩ =
      MonitorEnterN t m ⟨some t, 1, ob, w⟩ := by
    show MonitorEnterN t m (MonitorEnter t ⟨none, 0, ob, w⟩) = _
    rfl
  have henter : MonitorEnterN t (m + 1) ⟨none, 0, ob, w⟩ =
      ⟨some t, m + 1, ob, w⟩ := by
    rw [hstep, MonitorEnterN_owned t m ⟨some t, 1, ob, w⟩ rfl]
    have : 1 + m = m + 1 := by omega
    rw [this]
  rw [henter,
    MonitorExitN_owned_full t (m + 1) ⟨some t, m + 1, ob, w⟩ rfl rfl (by omega)]
  simp [MonitorExit]

/-- Witness for C2: thread 7 enters twice and exits twice on an unlocked
monitor backing object 3; a third exit fails with the mismatch record. -/
theorem monitor_reentrancy_witness :
    (MonitorExitN 7 2 (MonitorEnterN 7 2 ⟨none, 0, 3, []⟩)).owner_ = none ∧
    (MonitorExitN 7 2 (MonitorEnterN 7 2 ⟨none, 0, 3, []⟩)).lock_count_ = 0 ∧
    (MonitorExit 7 (MonitorExitN 7 2 (MonitorEnterN 7 2 ⟨none, 0, 3, []⟩))).ok = false ∧
    (MonitorExit 7 (MonitorExitN 7 2 (MonitorEnterN 7 2 ⟨none, 0, 3, []⟩))).failed_unlock =
      some { obj := 3, expected_owner := 7, found_owner := none } :=
  monitor_reentrancy 7 2 ⟨none, 0, 3, []⟩ (by decide) rfl rfl

/-- C3: `MonitorExit` error signalling.  The boolean result is the failure
value exactly when the calling thread is not the current owner; on that path
`FailedUnlock` is invoked with the expected owner (the caller) and the found
owner, the monitor state is left unchanged (no abort), and on the success path
no `FailedUnlock` call is made. -/
theorem monitor_exit_error_signalling (t : Nat) (s : MonitorState) :
    ((MonitorExit t s).ok = false ↔ s.owner_ ≠ some t) ∧
    (s.owner_ ≠ some t →
      (MonitorExit t s).failed_unlock =
        some { obj := s.obj_, expected_owner := t, found_owner := s.owner_ } ∧
      (MonitorExit t s).state = s) ∧
    (s.owner_ = some t → (MonitorExit t s).failed_unlock = none) := by
  obtain ⟨o, c, ob, w⟩ := s
  cases o with
  | none => simp [MonitorExit]
  | some u =>
      by_cases hu : u = t
      · subst hu
        by_cases hc : c - 1 = 0 <;> simp [MonitorExit, hc]
      · simp [MonitorExit, hu, Ne.symm hu]

/-- Witness for C3: thread 4 exiting a monitor owned by thread 9 gets the
failure return and the owner-mismatch diagnostic record. -/
theorem monitor_exit_error_signalling_witness :
    (MonitorExit 4 ⟨some 9, 1, 2, []⟩).ok = false ∧
    (MonitorExit 4 ⟨some 9, 1, 2, []⟩).failed_unlock =
      some { obj := 2, expected_owner := 4, found_owner := some 9 } :=
  ⟨(monitor_exit_error_signalling 4 ⟨some 9, 1, 2, []⟩).1.mpr (by decide),
   ((monitor_exit_error_signalling 4 ⟨some 9, 1, 2, []⟩).2.1 (by decide)).1⟩

/-- C4: depth restoration across `Wait`.  A thread owning the monitor at depth
n that waits and is woken by notify, timeout, or interrupt — for either value
of `interruptShouldThrow` — resumes owning at exactly depth n with the wait set
as before its wait; it stays owner through the first n-1 subsequent exits and
exactly n `MonitorExit` calls fully unlock the monitor. -/
theorem wait_depth_restoration (t n : Nat) (ms ns : Int) (ist : Bool)
    (reason : WakeReason) (s : MonitorState) (ho : s.owner_ = some t)
    (hc : s.lock_count_ = n) (hn : 1 ≤ n) (hw : t ∉ s.wait_set_) :
    (WaitWithLock t ms ns ist reason s).owner_ = some t ∧
    (WaitWithLock t ms ns ist reason s).lock_count_ = n ∧
    (WaitWithLock t ms ns ist reason s).wait_set_ = s.wait_set_ ∧
    (∀ k, k < n →
      (MonitorExitN t k (WaitWithLock t ms ns ist reason s)).owner_ = some t ∧
      0 < (MonitorExitN t k (WaitWithLock t ms ns ist reason s)).lock_count_) ∧
    (MonitorExitN t n (WaitWithLock t ms ns ist reason s)).owner_ = none ∧
    (MonitorExitN t n (WaitWithLock t ms ns ist reason s)).lock_count_ = 0 := by
  obtain ⟨o, c, ob, w⟩ := s
  simp only at ho hc hw
  subst ho
  subst hc
  have hws : (w ++ [t]).erase t = w := by
    rw [List.erase_append_right _ hw]
    simp
  have hs : WaitWithLock t ms ns ist reason ⟨some t, c, ob, w⟩ =
      ⟨some t, c, ob, w⟩ := by
    simp only [WaitWithLock, AppendToWaitSet, RemoveFromWaitSet]
    simp [hws]
  rw [hs]
  refine ⟨rfl, rfl, rfl, ?_, ?_, ?_⟩
  · intro k hk
    rw [MonitorExitN_owned_lt t k ⟨some t, c, ob, w⟩ rfl (by simpa using hk)]
    exact ⟨rfl, by simp; omega⟩
  · rw [MonitorExitN_owned_full t c ⟨some t, c, ob, w⟩ rfl rfl hn]
  · rw [MonitorExitN_owned_full t c ⟨some t, c, ob, w⟩ rfl rfl hn]

/-- Witness for C4: thread 2 holding at depth 2 waits (interrupt wake path,
`interruptShouldThrow` true) and resumes at depth 2; two exits unlock. -/
theorem wait_depth_restoration_witness :
    (WaitWithLock 2 0 0 true WakeReason.interrupted ⟨some 2, 2, 5, [8]⟩).owner_ = some 2 ∧
    (WaitWithLock 2 0 0 true WakeReason.interrupted ⟨some 2, 2, 5, [8]⟩).lock_count_ = 2 ∧
    (MonitorExitN 2 2 (WaitWithLock 2 0 0 true WakeReason.interrupted
      ⟨some 2, 2, 5, [8]⟩)).owner_ = none :=
  ⟨(wait_depth_restoration 2 2 0 0 true WakeReason.interrupted ⟨some 2, 2, 5, [8]⟩
      rfl rfl (by decide) (by decide)).1,
   (wait_depth_restoration 2 2 0 0 true WakeReason.interrupted ⟨some 2, 2, 5, [8]⟩
      rfl rfl (by decide) (by decide)).2.1,
   (wait_depth_restoration 2 2 0 0 true WakeReason.interrupted ⟨some 2, 2, 5, [8]⟩
      rfl rfl (by decide) (by decide)).2.2.2.2.1⟩

/-- C5: FIFO wake order.  Appending preserves insertion order; with waiters
w1, w2, w3 at the front of the wait set, three successive `Notify` calls by the
owner wake w1, then w2, then w3, and `NotifyAll` removes and wakes every thread
in the wait set. -/
theorem notify_fifo_order (t w1 w2 w3 : Nat) (rest : List Nat) (s : MonitorState)
    (ho : s.owner_ = some t) (hw : s.wait_set_ = w1 :: w2 :: w3 :: rest) :
    (Notify t s).1 = some w1 ∧
    (Notify t (Notify t s).2).1 = some w2 ∧
    (Notify t (Notify t (Notify t s).2).2).1 = some w3 ∧
    (Notify t (Notify t (Notify t s).2).2).2.wait_set_ = rest ∧
    (NotifyAll t s).1 = w1 :: w2 :: w3 :: rest ∧
    (NotifyAll t s).2.wait_set_ = [] ∧
    (∀ u, (AppendToWaitSet u s).wait_set_ = s.wait_set_ ++ [u]) := by
  obtain ⟨o, c, ob, w⟩ := s
  simp only at ho hw
  subst ho
  subst hw
  simp [Notify, NotifyWithLock, NotifyAll, NotifyAllWithLock, AppendToWaitSet]

/-- Witness for C5: owner 1 notifies three times with waiters 10, 11, 12; they
are woken in insertion order and `NotifyAll` wakes all of them. -/
theorem notify_fifo_order_witness :
    (Notify 1 ⟨some 1, 1, 0, [10, 11, 12]⟩).1 = some 10 ∧
    (Notify 1 (Notify 1 ⟨some 1, 1, 0, [10, 11, 12]⟩).2).1 = some 11 ∧
    (Notify 1 (Notify 1 (Notify 1 ⟨some 1, 1, 0, [10, 11, 12]⟩).2).2).1 = some 12 ∧
    (NotifyAll 1 ⟨some 1, 1, 0, [10, 11, 12]⟩).1 = [10, 11, 12] :=
  ⟨(notify_fifo_order 1 10 11 12 [] ⟨some 1, 1, 0, [10, 11, 12]⟩ rfl rfl).1,
   (notify_fifo_order 1 10 11 12 [] ⟨some 1, 1, 0, [10, 11, 12]⟩ rfl rfl).2.1,
   (notify_fifo_order 1 10 11 12 [] ⟨some 1, 1, 0, [10, 11, 12]⟩ rfl rfl).2.2.1,
   (notify_fifo_order 1 10 11 12 [] ⟨some 1, 1, 0, [10, 11, 12]⟩ rfl rfl).2.2.2.2.1⟩

/-- C6: sweep removal.  After `SweepMonitorList` with predicate `is_marked`, a
monitor is in the registry exactly when it was registered and its backing
object is marked; a monitor whose object is unmarked is removed and stays
absent from any subsequent sweep enumeration. -/
theorem sweep_removal (is_marked : Nat → Bool) (ml : MonitorListState)
    (m : MonitorState) :
    (m ∈ (MonitorList.SweepMonitorList is_marked ml).list_ ↔
      m ∈ ml.list_ ∧ is_marked m.obj_ = true) ∧
    (is_marked m.obj_ = false →
      m ∉ (MonitorList.SweepMonitorList is_marked ml).list_ ∧
      ∀ is_marked2 : Nat → Bool,
        m ∉ (MonitorList.SweepMonitorList is_marked2
              (MonitorList.SweepMonitorList is_marked ml)).list_) := by
  constructor
  · simp [MonitorList.SweepMonitorList, List.mem_filter]
  · intro hf
    constructor
    · simp [MonitorList.SweepMonitorList, List.mem_filter, hf]
    · intro p
      simp [MonitorList.SweepMonitorList, List.mem_filter, hf]

/-- Witness for C6: a monitor backing object 0 swept with an all-unmarked
predicate is absent from the registry and from a further sweep. -/
theorem sweep_removal_witness :
    (⟨none, 0, 0, []⟩ : MonitorState) ∉
      (MonitorList.SweepMonitorList (fun _ => false) ⟨[⟨none, 0, 0, []⟩]⟩).list_ ∧
    (⟨none, 0, 0, []⟩ : MonitorState) ∉
      (MonitorList.SweepMonitorList (fun _ => true)
        (MonitorList.SweepMonitorList (fun _ => false) ⟨[⟨none, 0, 0, []⟩]⟩)).list_ :=
  ⟨((sweep_removal (fun _ => false) ⟨[⟨none, 0, 0, []⟩]⟩ ⟨none, 0, 0, []⟩).2 rfl).1,
   ((sweep_removal (fun _ => false) ⟨[⟨none, 0, 0, []⟩]⟩ ⟨none, 0, 0, []⟩).2 rfl).2
     (fun _ => true)⟩

/-- C7: `GetThinLockId` extraction.  For every raw lock word, `GetThinLockId`
returns exactly the 16-bit owner-thread-ID field `(w >> 3) & 0xffff` — the
field at bit positions 3 through 18 — and the result always fits in 16 bits. -/
theorem getThinLockId_extracts_owner_field (w : Nat) :
    Monitor.GetThinLockId w = (w >>> 3) &&& 0xffff ∧
    Monitor.GetThinLockId w = w / 8 % 65536 ∧
    Monitor.GetThinLockId w < 2 ^ 16 := by
  refine ⟨rfl, LW_LOCK_OWNER_eq_mod w, ?_⟩
  show LW_LOCK_OWNER w < 2 ^ 16
  rw [LW_LOCK_OWNER_eq_mod w]
  have : (65536 : Nat) = 2 ^ 16 := by norm_num
  rw [← this]
  exact Nat.mod_lt _ (by norm_num)

/-- C8: LockWord layout.  The shape field is the single lowest bit
(`LW_SHAPE(w) = w & 1 = w % 2`) with Thin encoded as 0 and Fat as 1; the hash
state is the 2-bit field at bits 1-2 (`LW_HASH_STATE(w) = (w >> 1) & 3 =
w / 2 % 4`); and the three named hash states are distinct values representable
in 2 bits. -/
theorem lockword_shape_and_hash_layout (w : Nat) :
    LW_SHAPE w = w &&& 1 ∧ LW_SHAPE w = w % 2 ∧
    LW_SHAPE_THIN = 0 ∧ LW_SHAPE_FAT = 1 ∧
    LW_HASH_STATE w = (w >>> 1) &&& 3 ∧ LW_HASH_STATE w = w / 2 % 4 ∧
    LW_HASH_STATE_UNHASHED ≠ LW_HASH_STATE_HASHED ∧
    LW_HASH_STATE_UNHASHED ≠ LW_HASH_STATE_HASHED_AND_MOVED ∧
    LW_HASH_STATE_HASHED ≠ LW_HASH_STATE_HASHED_AND_MOVED ∧
    LW_HASH_STATE_UNHASHED < 4 ∧ LW_HASH_STATE_HASHED < 4 ∧
    LW_HASH_STATE_HASHED_AND_MOVED < 4 :=
  ⟨rfl, LW_SHAPE_eq_mod w, rfl, rfl, rfl, LW_HASH_STATE_eq_mod w,
   by decide, by decide, by decide, by decide, by decide, by decide⟩

/-- C9: `obj_` immutability.  Starting from construction, no history of monitor
operations changes the `obj_` back-reference: `GetObject` always returns the
object passed at construction; a sweep only filters the registry, leaving every
surviving monitor untouched; and `runEvents` preserves `obj_` from any state. -/
theorem monitor_obj_immutable (owner obj : Nat) (evs : List MonitorEvent) :
    Monitor.GetObject (runEvents evs (Monitor.construct owner obj)) = obj ∧
    (∀ (is_marked : Nat → Bool) (ml : MonitorListState) (m : MonitorState),
      m ∈ (MonitorList.SweepMonitorList is_marked ml).list_ → m ∈ ml.list_) ∧
    (∀ s : MonitorState, (runEvents evs s).obj_ = s.obj_) := by
  refine ⟨?_, ?_, fun s => runEvents_obj evs s⟩
  · show (runEvents evs (Monitor.construct owner obj)).obj_ = obj
    rw [runEvents_obj]
    rfl
  · intro p ml m hm
    exact List.mem_of_mem_filter hm

/-- Witness for C9: after an enter/wait/notify/exit history, `GetObject` still
returns object 42. -/
theorem monitor_obj_immutable_witness :
    Monitor.GetObject (runEvents
      [MonitorEvent.enter 1, MonitorEvent.leave 1, MonitorEvent.enter 6]
      (Monitor.construct 1 42)) = 42 :=
  (monitor_obj_immutable 1 42
    [MonitorEvent.enter 1, MonitorEvent.leave 1, MonitorEvent.enter 6]).1

/-- C10: LockWord decoding is total and the fields are bit-disjoint.  Every
word decodes (`LW_SHAPE` in two values, `LW_HASH_STATE` below 4,
`LW_LOCK_OWNER` below 2^16), and each extractor depends only on its own bit
range — bit 0, bits 1-2, bits 3-18 respectively — so two words agreeing on a
field's bit range decode that field identically regardless of all other
bits. -/
theorem lockword_fields_total_and_disjoint (w w1 w2 : Nat) :
    (LW_SHAPE w < 2 ∧ LW_HASH_STATE w < 4 ∧ LW_LOCK_OWNER w < 2 ^ 16) ∧
    (w1 % 2 = w2 % 2 → LW_SHAPE w1 = LW_SHAPE w2) ∧
    (w1 / 2 % 4 = w2 / 2 % 4 → LW_HASH_STATE w1 = LW_HASH_STATE w2) ∧
    (w1 / 8 % 2 ^ 16 = w2 / 8 % 2 ^ 16 → LW_LOCK_OWNER w1 = LW_LOCK_OWNER w2) := by
  have h16 : (65536 : Nat) = 2 ^ 16 := by norm_num
  refine ⟨⟨?_, ?_, ?_⟩, ?_, ?_, ?_⟩
  · rw [LW_SHAPE_eq_mod]
    exact Nat.mod_lt _ (by norm_num)
  · rw [LW_HASH_STATE_eq_mod]
    exact Nat.mod_lt _ (by norm_num)
  · rw [LW_LOCK_OWNER_eq_mod, ← h16]
    exact Nat.mod_lt _ (by norm_num)
  · intro h
    rw [LW_SHAPE_eq_mod, LW_SHAPE_eq_mod, h]
  · intro h
    rw [LW_HASH_STATE_eq_mod, LW_HASH_STATE_eq_mod, h]
  · intro h
    rw [LW_LOCK_OWNER_eq_mod, LW_LOCK_OWNER_eq_mod, h16, h]

/-- Witness for C10: words 0 and 2^20 differ only above all three fields and
decode every field identically; word 3 decodes within range. -/
theorem lockword_fields_total_and_disjoint_witness :
    (LW_SHAPE 3 < 2 ∧ LW_HASH_STATE 3 < 4 ∧ LW_LOCK_OWNER 3 < 2 ^ 16) ∧
    LW_SHAPE 0 = LW_SHAPE 1048576 ∧
    LW_HASH_STATE 0 = LW_HASH_STATE 1048576 ∧
    LW_LOCK_OWNER 0 = LW_LOCK_OWNER 1048576 :=
  ⟨(lockword_fields_total_and_disjoint 3 0 1048576).1,
   (lockword_fields_total_and_disjoint 3 0 1048576).2.1 (by decide),
   (lockword_fields_total_and_disjoint 3 0 1048576).2.2.1 (by decide),
   (lockword_fields_total_and_disjoint 3 0 1048576).2.2.2 (by decide)⟩

end Art
